import Mathlib

/-!
Shallow embedding of `src/klipper_config/teste/git_backup.py`, a Moonraker
plugin that watches configuration files and commits/pushes them to a remote
git repository on every save event.

The embedding has three layers:
* executable models of the Python library functions the source uses
  (`urllib.parse.urlparse`/`urlunparse`, `str.split`/`str.strip`,
  `os.path.basename`, `str.format`);
* a small operational model of the external `git` tool (the environment the
  plugin drives through `subprocess.run`), with an explicit trace of every
  subprocess invocation and of every log line;
* direct translations of the plugin's methods (`_validate_config`,
  `_check_git_installed`, `_initialize_repo`, `_setup_remote`,
  `_on_file_saved`, and `__init__`).
-/

/-! ## Models of the Python string/URL library functions used by the source -/

/-- Model of CPython `str.isspace` on the characters `str.strip` removes by
default (space, tab, newline, carriage return, vertical tab, form feed). -/
def pyIsSpace (c : Char) : Bool :=
  c = ' ' || c = '\t' || c = '\n' || c = '\r' || c = '\x0b' || c = '\x0c'

/-- Model of Python `str.strip()` (no argument): drop leading and trailing
whitespace characters. -/
def pyStrip (cs : List Char) : List Char :=
  ((cs.dropWhile pyIsSpace).reverse.dropWhile pyIsSpace).reverse

/-- Model of Python `str.split(sep)` for a single-character separator `,`:
splits on every comma, keeping empty fields (`"".split(',') == ['']`). -/
def splitComma : List Char → List (List Char)
  | [] => [[]]
  | ',' :: rest => [] :: splitComma rest
  | c :: rest =>
    match splitComma rest with
    | [] => [[c]]
    | g :: gs => (c :: g) :: gs

/-- Translation of line 23 of the source:
`self.watched_files = [f.strip() for f in config.get('watched_files', 'printer.cfg').split(',')]`. -/
def parseWatchedFiles (raw : String) : List String :=
  (splitComma raw.toList).map fun cs => String.mk (pyStrip cs)

/-- Modelled from the spec of Python `os.path.basename` (POSIX): the part of
the path after the last slash. -/
def pyBasename (p : String) : String :=
  String.mk ((p.toList.reverse.takeWhile (· ≠ '/')).reverse)

/-- Result of `urllib.parse.urlparse` restricted to the components the source
reads (`scheme`, `netloc`, `path`). -/
structure ParsedUrl where
  scheme : String
  netloc : String
  path : String
  deriving DecidableEq, Repr

/-- Helper for `pyUrlparse`: find the first occurrence of `"://"` and return
the text before it and after it. -/
def splitSchemeAux : List Char → List Char → Option (List Char × List Char)
  | [], _ => none
  | ':' :: '/' :: '/' :: rest, acc => some (acc.reverse, rest)
  | c :: rest, acc => splitSchemeAux rest (c :: acc)

/-- Modelled from the spec of `urllib.parse.urlparse` for absolute URLs of the
shape `scheme://netloc/path` (the only shape the source feeds it): the scheme
is the text before `"://"`, the netloc runs to the next `/`, the path is the
rest.  A string with no `"://"` parses as a bare path, as in CPython. -/
def pyUrlparse (url : String) : ParsedUrl :=
  match splitSchemeAux url.toList [] with
  | none => { scheme := "", netloc := "", path := url }
  | some (sch, rest) =>
    { scheme := String.mk sch
      netloc := String.mk (rest.takeWhile (· ≠ '/'))
      path := String.mk (rest.dropWhile (· ≠ '/')) }

/-- Modelled from the spec of `urllib.parse.urlunparse` at the source's call
site, where params, query and fragment are passed as `''`: the URL is
`path`, prefixed by `//netloc` when the netloc is non-empty, prefixed by
`scheme:` when the scheme is non-empty. -/
def pyUrlunparse (scheme netloc path : String) : String :=
  let url := if netloc = "" then path else "//" ++ netloc ++ path
  if scheme = "" then url else scheme ++ ":" ++ url

/-- Translation of lines 91-94 of the source (`_setup_remote`): parse the
configured remote URL and rebuild it with `f'{self.github_token}@{parsed_url.netloc}'`
as the netloc. -/
def urlWithToken (remote_url github_token : String) : String :=
  let parsed := pyUrlparse remote_url
  pyUrlunparse parsed.scheme (github_token ++ "@" ++ parsed.netloc) parsed.path

/-- Modelled from the spec: inject an access token as the user-info
component of a `scheme://host/path` URL, yielding `scheme://TOKEN@host/path`. -/
def specInjectUserinfo (scheme host path token : String) : String :=
  scheme ++ "://" ++ token ++ "@" ++ host ++ path

/-- Modelled from the spec of Python `str.format` restricted to the usage in
the source (a single keyword argument `filename`, plain replacement fields):
literal text is copied, `\x7b\x7b` and `\x7d\x7d` are escapes for single
braces, `\x7bfilename\x7d` is replaced by the argument, any other replacement
field raises (`KeyError`), and unbalanced braces raise (`ValueError`).  The
accumulator holds the characters of the field name read so far, reversed;
`none` means we are in literal text. -/
def pyFormatAux (arg : List Char) : List Char → Option (List Char) → Except String (List Char)
  | [], none => .ok []
  | [], some _ => .error "ValueError: Single \x7b encountered in format string"
  | '\x7b' :: '\x7b' :: rest, none =>
    (pyFormatAux arg rest none).map fun r => '\x7b' :: r
  | '\x7d' :: '\x7d' :: rest, none =>
    (pyFormatAux arg rest none).map fun r => '\x7d' :: r
  | '\x7d' :: _, none => .error "ValueError: Single \x7d encountered in format string"
  | '\x7b' :: rest, none => pyFormatAux arg rest (some [])
  | '\x7d' :: rest, some acc =>
    if acc.reverse = "filename".toList then
      (pyFormatAux arg rest none).map fun r => arg ++ r
    else .error "KeyError"
  | '\x7b' :: _, some _ => .error "ValueError: unexpected \x7b in field name"
  | c :: rest, some acc => pyFormatAux arg rest (some (c :: acc))
  | c :: rest, none => (pyFormatAux arg rest none).map fun r => c :: r

/-- Model of `self.commit_message.format(filename=filename)` (line 121). -/
def pyFormat (template arg : String) : Except String String :=
  (pyFormatAux arg.toList template.toList none).map fun cs => String.mk cs

/-! ## Operational model of the external `git` tool

The plugin drives `git` through `subprocess.run` with
`cwd = self.config_path`.  `GitCmd` has one constructor per call site of
`_run_git_command` in the source; `RepoState` is the on-disk repository
state the commands read and mutate; `gitExec` is the behaviour of each git
command, modelled from git's documented semantics (git itself is an external
collaborator, not part of the repository). -/

/-- One constructor per `_run_git_command` call site in the source. -/
inductive GitCmd where
  | version
  | init
  | checkoutBranch (branch : String)
  | configUserName
  | configUserEmail
  | add (path : String)
  | commitMsg (msg : String)
  | statusPorcelain
  | push (branch : String)
  | remoteRemoveOrigin
  | remoteAddOrigin (url : String)
  deriving DecidableEq, Repr

/-- On-disk repository state at `config_path`.  `dirty` is the set of
tracked paths whose content differs from the last commit and is not yet
staged; `staged` is the set of paths staged for the next commit;
`untracked` is the set of paths present in the directory but unknown to
git (`git status --porcelain` reports them as `?? path`). -/
structure RepoState where
  hasGitDir : Bool
  branch : String
  commitCount : Nat
  originUrl : Option String
  dirty : List String
  staged : List String
  untracked : List String
  deriving DecidableEq, Repr

/-- Ambient environment: whether the `git` binary is installed, whether a
push to the remote succeeds (network), and which files exist on disk at
`config_path` (`os.path.exists`). -/
structure Env where
  gitInstalled : Bool
  pushOk : Bool
  fileExists : String → Bool

/-- Modelled from git: output of `git status --porcelain`, abstracted to its
emptiness, which is all the source inspects: empty exactly when there are no
staged changes, no unstaged changes to tracked files, and no untracked
files (porcelain lists untracked files as `?? path` by default), otherwise
a non-empty marker. -/
def statusOutput (r : RepoState) : String :=
  if r.staged.isEmpty && r.dirty.isEmpty && r.untracked.isEmpty then "" else "M"

/-- Modelled from git's documented behaviour of each command the source
issues: `init` creates the metadata directory; `add` stages a path exactly
when it is a modified tracked file or an untracked file; `commit` commits
the staged changes and fails when nothing is staged; `push` fails without a
configured remote or on network failure; `remote remove` fails when the
remote does not exist; `remote add` fails when it does. -/
def gitExec (env : Env) (r : RepoState) : GitCmd → Except String (RepoState × String)
  | .version =>
    if env.gitInstalled then .ok (r, "git version 2.43.0") else .error "git: command not found"
  | .init => .ok ({ r with hasGitDir := true }, "")
  | .checkoutBranch b => .ok ({ r with branch := b }, "")
  | .configUserName => .ok (r, "")
  | .configUserEmail => .ok (r, "")
  | .add p =>
    if r.dirty.contains p then
      .ok ({ r with dirty := r.dirty.erase p, staged := p :: r.staged }, "")
    else if r.untracked.contains p then
      .ok ({ r with untracked := r.untracked.erase p, staged := p :: r.staged }, "")
    else .ok (r, "")
  | .commitMsg _ =>
    if r.staged.isEmpty then .error "nothing to commit"
    else .ok ({ r with staged := [], commitCount := r.commitCount + 1 }, "")
  | .statusPorcelain => .ok (r, statusOutput r)
  | .push _ =>
    match r.originUrl with
    | none => .error "fatal: no configured push destination"
    | some _ => if env.pushOk then .ok (r, "") else .error "failed to push some refs"
  | .remoteRemoveOrigin =>
    match r.originUrl with
    | none => .error "error: No such remote: origin"
    | some _ => .ok ({ r with originUrl := none }, "")
  | .remoteAddOrigin url =>
    match r.originUrl with
    | some _ => .error "error: remote origin already exists"
    | none => .ok ({ r with originUrl := some url }, "")

/-- The world the plugin acts on: the repository, the trace of every git
subprocess invocation so far, and the log lines emitted so far. -/
structure World where
  repo : RepoState
  trace : List GitCmd
  logs : List String
  deriving Repr

/-- Translation of `_run_git_command` (lines 55-68).  With
`suppress_errors=False` the subprocess runs with `check=True`, so a nonzero
exit raises `CalledProcessError`, which the method logs and re-raises; with
`suppress_errors=True` it runs with `check=False` and the stripped stdout of
the failed command (empty here) is returned.  Every invocation, successful
or not, is a spawned subprocess and is recorded in the trace. -/
def runGitCommand (env : Env) (suppress_errors : Bool) (cmd : GitCmd) (w : World) :
    World × Except String String :=
  let w1 : World := { w with trace := w.trace ++ [cmd] }
  match gitExec env w1.repo cmd with
  | .ok (r, out) => ({ w1 with repo := r }, .ok out)
  | .error e =>
    if suppress_errors then (w1, .ok "")
    else ({ w1 with logs := w1.logs ++ ["Erro ao executar comando git: " ++ e] }, .error e)

/-! ## Translation of the plugin itself -/

/-- The fields `__init__` stores on `self` (lines 20-25), plus whether the
save-event handler was registered with the host event bus (line 38). -/
structure Agent where
  is_enabled : Bool
  remote_url : Option String
  github_token : Option String
  watched_files : List String
  commit_message : String
  branch_name : String
  handlerRegistered : Bool

/-- The raw configuration values `__init__` reads from `moonraker.conf`
(lines 20-25), with the host getters' defaults already applied for the
always-defaulted options; `remote_url` and `github_token` default to
`None`. -/
structure Config where
  enabled : Bool
  remote_url : Option String
  github_token : Option String
  watched_files : String
  commit_message : String
  branch : String

/-- Python truthiness of an optional string: `None` and `''` are falsy. -/
def pyFalsy : Option String → Bool
  | none => true
  | some s => s = ""

/-- Translation of `_validate_config` (lines 45-47). -/
def validateConfig (a : Agent) : Except String Unit :=
  if pyFalsy a.remote_url || pyFalsy a.github_token then
    .error "A remote_url e o github_token são obrigatórios no moonraker.conf"
  else .ok ()

/-- Translation of `_check_git_installed` (lines 49-53). -/
def checkGitInstalled (env : Env) (w : World) : World × Except String Unit :=
  match runGitCommand env false .version w with
  | (w1, .ok _) => (w1, .ok ())
  | (w1, .error _) =>
    (w1, .error "Comando git não encontrado. Por favor, instale o git para usar o plugin.")

/-- Translation of the loop at lines 83-85 of `_initialize_repo`: add each
watched file that exists on disk; a failing `git add` raises out of the
loop. -/
def addWatchedFiles (env : Env) : List String → World → World × Except String Unit
  | [], w => (w, .ok ())
  | f :: rest, w =>
    if env.fileExists f then
      match runGitCommand env false (.add f) w with
      | (w1, .ok _) => addWatchedFiles env rest w1
      | (w1, .error e) => (w1, .error e)
    else addWatchedFiles env rest w

/-- Translation of `_initialize_repo` (lines 70-87). -/
def initializeRepo (env : Env) (a : Agent) (w : World) : World × Except String Unit :=
  if w.repo.hasGitDir then
    ({ w with logs := w.logs ++ ["Repositório Git já existe."] }, .ok ())
  else
  let w := { w with logs := w.logs ++ ["Inicializando novo repositório Git..."] }
  match runGitCommand env false .init w with
  | (w, .error e) => (w, .error e)
  | (w, .ok _) =>
  match runGitCommand env false (.checkoutBranch a.branch_name) w with
  | (w, .error e) => (w, .error e)
  | (w, .ok _) =>
  match runGitCommand env false .configUserName w with
  | (w, .error e) => (w, .error e)
  | (w, .ok _) =>
  match runGitCommand env false .configUserEmail w with
  | (w, .error e) => (w, .error e)
  | (w, .ok _) =>
  match addWatchedFiles env a.watched_files w with
  | (w, .error e) => (w, .error e)
  | (w, .ok _) =>
  match runGitCommand env false
      (.commitMsg "Commit inicial: Arquivos de configuração monitorados") w with
  | (w, .error e) => (w, .error e)
  | (w, .ok _) =>
    ({ w with logs := w.logs ++ ["Repositório Git inicializado com sucesso."] }, .ok ())

/-- Translation of `_setup_remote` (lines 89-100). -/
def setupRemote (env : Env) (a : Agent) (w : World) : World × Except String Unit :=
  let w := { w with logs := w.logs ++ ["Configurando repositório remoto..."] }
  let url := urlWithToken (a.remote_url.getD "") (a.github_token.getD "")
  match runGitCommand env true .remoteRemoveOrigin w with
  | (w, .error e) => (w, .error e)
  | (w, .ok _) =>
  match runGitCommand env false (.remoteAddOrigin url) w with
  | (w, .error e) => (w, .error e)
  | (w, .ok _) =>
    ({ w with logs := w.logs ++ ["Repositório remoto configurado com sucesso."] }, .ok ())

/-- The sequence inside the `try` of `__init__` (lines 34-38): validate,
check the git binary, bootstrap the repository, configure the remote.  The
event-handler registration that follows cannot fail and is recorded by the
caller. -/
def initSteps (env : Env) (a : Agent) (w : World) : World × Except String Unit :=
  match validateConfig a with
  | .error e => (w, .error e)
  | .ok _ =>
  match checkGitInstalled env w with
  | (w, .error e) => (w, .error e)
  | (w, .ok _) =>
  match initializeRepo env a w with
  | (w, .error e) => (w, .error e)
  | (w, .ok _) => setupRemote env a w

/-- Translation of `GitBackup.__init__` (lines 12-43): build the agent from
the configuration, return immediately when disabled, otherwise run the
initialization sequence; on any exception log it and set
`self.is_enabled = False`. -/
def gitBackupInit (env : Env) (cfg : Config) (w : World) : Agent × World :=
  let a : Agent :=
    { is_enabled := cfg.enabled
      remote_url := cfg.remote_url
      github_token := cfg.github_token
      watched_files := parseWatchedFiles cfg.watched_files
      commit_message := cfg.commit_message
      branch_name := cfg.branch
      handlerRegistered := false }
  if !a.is_enabled then
    (a, { w with logs := w.logs ++ ["GitBackup está desabilitado na configuração."] })
  else
  let w := { w with logs := w.logs ++ ["Plugin GitBackup inicializado."] }
  match initSteps env a w with
  | (w, .ok _) => ({ a with handlerRegistered := true }, w)
  | (w, .error e) =>
    ({ a with is_enabled := false },
      { w with logs := w.logs ++ ["Erro fatal na inicialização do GitBackup: " ++ e] })

/-- The log line of the handler's `except` branch (line 129). -/
def falhaLog (filename e : String) : String :=
  "Falha ao fazer backup de " ++ filename ++ ": " ++ e

/-- Translation of `_on_file_saved` (lines 102-129).  The whole
stage/status/format/commit/push sequence sits inside one `try`; any
exception is logged with the filename and swallowed, so the function always
returns normally to the host dispatcher. -/
def onFileSaved (env : Env) (a : Agent) (filepath : String) (w : World) :
    World × Except String Unit :=
  if !a.is_enabled then (w, .ok ())
  else
  let filename := pyBasename filepath
  if a.watched_files.contains filename then
    let w := { w with logs :=
      w.logs ++ ["Arquivo monitorado " ++ filename ++ " foi salvo. Iniciando backup..."] }
    match runGitCommand env false (.add filepath) w with
    | (w, .error e) => ({ w with logs := w.logs ++ [falhaLog filename e] }, .ok ())
    | (w, .ok _) =>
    match runGitCommand env false .statusPorcelain w with
    | (w, .error e) => ({ w with logs := w.logs ++ [falhaLog filename e] }, .ok ())
    | (w, .ok status) =>
    if status = "" then
      ({ w with logs := w.logs ++ ["Nenhuma modificação real detectada. Backup cancelado."] },
        .ok ())
    else
    match pyFormat a.commit_message filename with
    | .error e => ({ w with logs := w.logs ++ [falhaLog filename e] }, .ok ())
    | .ok commit_msg =>
    match runGitCommand env false (.commitMsg commit_msg) w with
    | (w, .error e) => ({ w with logs := w.logs ++ [falhaLog filename e] }, .ok ())
    | (w, .ok _) =>
    match runGitCommand env false (.push a.branch_name) w with
    | (w, .error e) => ({ w with logs := w.logs ++ [falhaLog filename e] }, .ok ())
    | (w, .ok _) =>
      ({ w with logs := w.logs ++ ["Backup de " ++ filename ++ " realizado com sucesso!"] },
        .ok ())
  else (w, .ok ())

/-- The bootstrap sequence of §4.2 of the spec as the source composes it:
`_initialize_repo` followed by `_setup_remote`. -/
def bootstrap (env : Env) (a : Agent) (w : World) : World × Except String Unit :=
  match initializeRepo env a w with
  | (w, .error e) => (w, .error e)
  | (w, .ok _) => setupRemote env a w

/-- Modelled from the spec: normalize the watched-files value by splitting on
commas, trimming whitespace around each entry, and dropping entries that are
empty after trimming. -/
def specNormalizeWatchedFiles (raw : String) : List String :=
  ((splitComma raw.toList).map fun cs => String.mk (pyStrip cs)).filter fun s => s != ""

/-- C1: the push URL `_setup_remote` configures equals the configured remote
URL with the access token injected as the user-info component; in particular
for remote URL `https://github.com/user/repo.git` and token `abc123` it is
`https://abc123@github.com/user/repo.git`. -/
theorem c1_push_url (url token : String)
    (h : (pyUrlparse url).scheme ≠ "") :
    urlWithToken url token =
      specInjectUserinfo (pyUrlparse url).scheme (pyUrlparse url).netloc
        (pyUrlparse url).path token ∧
    urlWithToken "https://github.com/user/repo.git" "abc123" =
      "https://abc123@github.com/user/repo.git" := by
  constructor
  · simp only [urlWithToken, pyUrlunparse, specInjectUserinfo]
    have hne : ¬(token ++ "@" ++ (pyUrlparse url).netloc = "") := by
      intro hc
      have hlen := congrArg String.length hc
      rw [String.length_append, String.length_append] at hlen
      have h1 : ("@" : String).length = 1 := rfl
      have h2 : ("" : String).length = 0 := rfl
      omega
    rw [if_neg hne, if_neg h]
    rw [show ("://" : String) = ":" ++ "//" from rfl]
    simp only [String.append_assoc]
  · rfl

/-- C1 witness at the spec's concrete example. -/
theorem c1_push_url_witness :
    (pyUrlparse "https://github.com/user/repo.git").scheme ≠ "" ∧
    urlWithToken "https://github.com/user/repo.git" "abc123" =
      specInjectUserinfo (pyUrlparse "https://github.com/user/repo.git").scheme
        (pyUrlparse "https://github.com/user/repo.git").netloc
        (pyUrlparse "https://github.com/user/repo.git").path "abc123" :=
  ⟨by decide, (c1_push_url "https://github.com/user/repo.git" "abc123" (by decide)).1⟩

/-- C8 is false on the code: the comprehension at line 23 trims each
comma-separated entry but never drops entries that are empty after trimming,
so the watched-file list can contain empty names. -/
theorem c8_counterexample :
    parseWatchedFiles "printer.cfg, ,macros.cfg" = ["printer.cfg", "", "macros.cfg"] ∧
    "" ∈ parseWatchedFiles "printer.cfg, ,macros.cfg" ∧
    parseWatchedFiles "printer.cfg, ,macros.cfg" ≠
      specNormalizeWatchedFiles "printer.cfg, ,macros.cfg" := by decide

/-- C8 amended: the watched-files value is split on commas and each entry is
trimmed, but empty entries are retained (one entry per comma-separated
field), so the result can contain empty names. -/
theorem c8_split_trim_keeps_empties :
    (∀ raw : String, (parseWatchedFiles raw).length = (splitComma raw.toList).length) ∧
    (∀ raw s : String, s ∈ parseWatchedFiles raw →
      ∃ cs ∈ splitComma raw.toList, s = String.mk (pyStrip cs)) ∧
    parseWatchedFiles " printer.cfg , ,macros.cfg" = ["printer.cfg", "", "macros.cfg"] := by
  refine ⟨fun raw => ?_, fun raw s hs => ?_, by decide⟩
  · simp [parseWatchedFiles]
  · simp only [parseWatchedFiles, List.mem_map] at hs
    obtain ⟨cs, hcs, hval⟩ := hs
    exact ⟨cs, hcs, hval.symm⟩

/-- C8 amended witness at a concrete raw value. -/
theorem c8_split_trim_keeps_empties_witness :
    (parseWatchedFiles "a, b").length = (splitComma "a, b".toList).length ∧
    ∃ cs ∈ splitComma "a, b".toList, "b" = String.mk (pyStrip cs) :=
  ⟨c8_split_trim_keeps_empties.1 "a, b",
   c8_split_trim_keeps_empties.2.1 "a, b" "b" (by decide)⟩

/-- C9: with enabled=false, initialization spawns no subprocess and touches
neither the repository nor the handler registration, and every later
save-event invocation returns immediately without any staging, commit or
push. -/
theorem c9_disabled_permanent_noop (env : Env) (cfg : Config) (r : RepoState)
    (hdis : cfg.enabled = false) :
    (gitBackupInit env cfg ⟨r, [], []⟩).2.trace = [] ∧
    (gitBackupInit env cfg ⟨r, [], []⟩).2.repo = r ∧
    (gitBackupInit env cfg ⟨r, [], []⟩).1.is_enabled = false ∧
    (gitBackupInit env cfg ⟨r, [], []⟩).1.handlerRegistered = false ∧
    ∀ (env2 : Env) (fp : String) (w : World),
      onFileSaved env2 (gitBackupInit env cfg ⟨r, [], []⟩).1 fp w = (w, .ok ()) := by
  simp [gitBackupInit, hdis, onFileSaved]

/-- C9 witness. -/
theorem c9_disabled_permanent_noop_witness :
    (gitBackupInit ⟨true, true, fun _ => true⟩
      ⟨false, some "https://github.com/u/r.git", some "t", "printer.cfg",
        "Auto-backup: \x7bfilename\x7d modificado", "main"⟩
      ⟨⟨false, "master", 0, none, [], [], []⟩, [], []⟩).2.trace = [] ∧
    (gitBackupInit ⟨true, true, fun _ => true⟩
      ⟨false, some "https://github.com/u/r.git", some "t", "printer.cfg",
        "Auto-backup: \x7bfilename\x7d modificado", "main"⟩
      ⟨⟨false, "master", 0, none, [], [], []⟩, [], []⟩).1.is_enabled = false :=
  ⟨(c9_disabled_permanent_noop _ _ _ rfl).1,
   (c9_disabled_permanent_noop _ _ _ rfl).2.2.1⟩

/-- C7: with enabled=true but a missing or empty remote_url or github_token,
validation fails before any git command runs: the agent ends disabled, the
subprocess trace is empty, the repository is untouched, the configuration
error is logged, and every later save-event invocation is a no-op. -/
theorem c7_invalid_config_disables (env : Env) (cfg : Config) (r : RepoState)
    (hen : cfg.enabled = true)
    (hmiss : (pyFalsy cfg.remote_url || pyFalsy cfg.github_token) = true) :
    (gitBackupInit env cfg ⟨r, [], []⟩).1.is_enabled = false ∧
    (gitBackupInit env cfg ⟨r, [], []⟩).2.trace = [] ∧
    (gitBackupInit env cfg ⟨r, [], []⟩).2.repo = r ∧
    ("Erro fatal na inicialização do GitBackup: " ++
        "A remote_url e o github_token são obrigatórios no moonraker.conf") ∈
      (gitBackupInit env cfg ⟨r, [], []⟩).2.logs ∧
    ∀ (env2 : Env) (fp : String) (w : World),
      onFileSaved env2 (gitBackupInit env cfg ⟨r, [], []⟩).1 fp w = (w, .ok ()) := by
  simp [gitBackupInit, hen, initSteps, validateConfig, hmiss, onFileSaved]

/-- Concrete configuration for the C7 witness: enabled with a missing token. -/
def c7cfg : Config :=
  ⟨true, some "https://github.com/u/r.git", none, "printer.cfg",
    "Auto-backup: \x7bfilename\x7d modificado", "main"⟩

/-- Concrete environment for the C7 witness. -/
def c7env : Env := ⟨true, true, fun _ => true⟩

/-- Concrete repository state for the C7 witness. -/
def c7repo : RepoState := ⟨false, "master", 0, none, [], [], []⟩

/-- C7 witness: enabled with a missing token. -/
theorem c7_invalid_config_disables_witness :
    (gitBackupInit c7env c7cfg ⟨c7repo, [], []⟩).1.is_enabled = false ∧
    (gitBackupInit c7env c7cfg ⟨c7repo, [], []⟩).2.trace = [] :=
  ⟨(c7_invalid_config_disables c7env c7cfg c7repo rfl rfl).1,
   (c7_invalid_config_disables c7env c7cfg c7repo rfl rfl).2.1⟩

/-- Helper: every branch of `_on_file_saved` ends by returning normally (the
`try` spans the whole backup sequence and the `except` swallows the error),
so no invocation ever raises back to the host dispatcher. -/
theorem onFileSaved_ok (env : Env) (a : Agent) (fp : String) (w : World) :
    (onFileSaved env a fp w).2 = .ok () := by
  simp only [onFileSaved]
  repeat' split <;> try rfl

/-- Concrete repository state for C4: the watched file is committed and
unchanged, but an unrelated untracked file sits in the config directory. -/
def c4repo : RepoState :=
  ⟨true, "main", 1, some "https://abc123@github.com/user/repo.git", [], [], ["unwatched.txt"]⟩

/-- Concrete environment for C4. -/
def c4env : Env := ⟨true, true, fun _ => true⟩

/-- Concrete agent for C4 (default template, watching printer.cfg). -/
def c4agent : Agent :=
  ⟨true, some "https://github.com/user/repo.git", some "abc123", ["printer.cfg"],
    "Auto-backup: \x7bfilename\x7d modificado", "main", true⟩

/-- C4 fails on the code: `git status --porcelain` also lists untracked
files, so with an untracked file in the config directory the status output
is non-empty even though the saved watched file is unchanged; the handler
does not return after the no-change log but goes on to a `git commit` that
fails with nothing staged and is logged as a backup failure.  (No commit and
no push result, but not through the empty-status early return the claim
describes.) -/
theorem c4_counterexample :
    statusOutput c4repo ≠ "" ∧
    (onFileSaved c4env c4agent "/home/pi/printer.cfg" ⟨c4repo, [], []⟩).1.trace =
      [.add "/home/pi/printer.cfg", .statusPorcelain,
       .commitMsg "Auto-backup: printer.cfg modificado"] ∧
    "Nenhuma modificação real detectada. Backup cancelado." ∉
      (onFileSaved c4env c4agent "/home/pi/printer.cfg" ⟨c4repo, [], []⟩).1.logs ∧
    falhaLog "printer.cfg" "nothing to commit" ∈
      (onFileSaved c4env c4agent "/home/pi/printer.cfg" ⟨c4repo, [], []⟩).1.logs ∧
    (onFileSaved c4env c4agent "/home/pi/printer.cfg" ⟨c4repo, [], []⟩).1.repo.commitCount = 1 :=
  ⟨by decide, rfl, by decide, by decide, rfl⟩

/-- C4 amended: a save event on an unchanged watched file produces zero new
commits and zero pushes.  The empty-status early return (trace exactly
stage+status, the no-change log, repository untouched) happens exactly when
the working tree additionally has no untracked files; otherwise the status
output is non-empty and the handler proceeds to a commit attempt that fails
with nothing staged — still zero commits and zero pushes. -/
theorem c4_clean_tree_skips_commit (env : Env) (a : Agent) (fp : String) (r : RepoState)
    (hen : a.is_enabled = true)
    (hw : pyBasename fp ∈ a.watched_files)
    (hdirty : r.dirty = []) (hstaged : r.staged = [])
    (hfp : fp ∉ r.untracked) :
    (onFileSaved env a fp ⟨r, [], []⟩).2 = .ok () ∧
    (onFileSaved env a fp ⟨r, [], []⟩).1.repo.commitCount = r.commitCount ∧
    (∀ b, GitCmd.push b ∉ (onFileSaved env a fp ⟨r, [], []⟩).1.trace) ∧
    (r.untracked = [] →
      (onFileSaved env a fp ⟨r, [], []⟩).1.repo = r ∧
      (onFileSaved env a fp ⟨r, [], []⟩).1.trace = [.add fp, .statusPorcelain] ∧
      "Nenhuma modificação real detectada. Backup cancelado." ∈
        (onFileSaved env a fp ⟨r, [], []⟩).1.logs) := by
  by_cases hu : r.untracked = []
  · simp [onFileSaved, hen, hw, runGitCommand, gitExec, statusOutput, hdirty, hstaged, hu, hfp]
  · cases hf : pyFormat a.commit_message (pyBasename fp) <;>
      simp [onFileSaved, hen, hw, runGitCommand, gitExec, statusOutput, hdirty, hstaged, hu,
        hfp, hf]

/-- C4 amended witness: a clean repository with no untracked files skips the
commit through the empty-status return. -/
theorem c4_clean_tree_skips_commit_witness :
    (onFileSaved ⟨true, true, fun _ => true⟩
      ⟨true, some "https://github.com/user/repo.git", some "abc123", ["printer.cfg"],
        "Auto-backup: \x7bfilename\x7d modificado", "main", true⟩
      "/home/pi/printer.cfg"
      ⟨⟨true, "main", 1, some "https://abc123@github.com/user/repo.git", [], [], []⟩, [], []⟩).1.trace =
      [.add "/home/pi/printer.cfg", .statusPorcelain] :=
  ((c4_clean_tree_skips_commit ⟨true, true, fun _ => true⟩
    ⟨true, some "https://github.com/user/repo.git", some "abc123", ["printer.cfg"],
      "Auto-backup: \x7bfilename\x7d modificado", "main", true⟩
    "/home/pi/printer.cfg"
    ⟨true, "main", 1, some "https://abc123@github.com/user/repo.git", [], [], []⟩
    rfl (by decide) rfl rfl (by decide)).2.2.2 rfl).2.1

/-- C5: a save event on a watched file whose content changed issues exactly
the four commands stage, status, commit, push — one commit carrying the
rendered template message, then one push of the configured branch — and the
commit count rises by exactly one. -/
theorem c5_changed_one_commit_one_push (env : Env) (a : Agent) (fp : String)
    (r : RepoState) (msg : String)
    (hen : a.is_enabled = true)
    (hw : pyBasename fp ∈ a.watched_files)
    (hd : fp ∈ r.dirty)
    (hfmt : pyFormat a.commit_message (pyBasename fp) = .ok msg) :
    (onFileSaved env a fp ⟨r, [], []⟩).1.trace =
      [.add fp, .statusPorcelain, .commitMsg msg, .push a.branch_name] ∧
    (onFileSaved env a fp ⟨r, [], []⟩).1.repo.commitCount = r.commitCount + 1 ∧
    (onFileSaved env a fp ⟨r, [], []⟩).2 = .ok () := by
  have hM : ¬(("M" : String) = "") := by decide
  cases horig : r.originUrl <;> cases hpush : env.pushOk <;>
    simp [onFileSaved, hen, hw, hd, hfmt, runGitCommand, gitExec, statusOutput, horig, hpush, hM]

/-- C5 witness: a dirty watched file with the default template. -/
theorem c5_changed_one_commit_one_push_witness :
    (onFileSaved ⟨true, true, fun _ => true⟩
      ⟨true, some "https://github.com/user/repo.git", some "abc123", ["printer.cfg"],
        "Auto-backup: \x7bfilename\x7d modificado", "main", true⟩
      "/home/pi/printer.cfg"
      ⟨⟨true, "main", 1, some "https://abc123@github.com/user/repo.git",
        ["/home/pi/printer.cfg"], [], []⟩, [], []⟩).1.trace =
      [.add "/home/pi/printer.cfg", .statusPorcelain,
       .commitMsg "Auto-backup: printer.cfg modificado", .push "main"] :=
  (c5_changed_one_commit_one_push ⟨true, true, fun _ => true⟩
    ⟨true, some "https://github.com/user/repo.git", some "abc123", ["printer.cfg"],
      "Auto-backup: \x7bfilename\x7d modificado", "main", true⟩
    "/home/pi/printer.cfg"
    ⟨true, "main", 1, some "https://abc123@github.com/user/repo.git",
      ["/home/pi/printer.cfg"], [], []⟩
    "Auto-backup: printer.cfg modificado"
    rfl (by decide) (by decide) rfl).1

/-- C2: every failure inside the save handler is caught there and logged with
the filename and the error text; in particular a push failure leaves the
already-made local commit in place (commit count stays incremented, nothing
is rolled back), and no invocation of the handler — for any agent, path or
world — ever propagates an error to the host. -/
theorem c2_handler_swallows_failures (env : Env) (a : Agent) (fp : String)
    (r : RepoState) (msg : String)
    (hen : a.is_enabled = true)
    (hw : pyBasename fp ∈ a.watched_files)
    (hd : fp ∈ r.dirty)
    (hfmt : pyFormat a.commit_message (pyBasename fp) = .ok msg)
    (hpush : env.pushOk = false) :
    (onFileSaved env a fp ⟨r, [], []⟩).2 = .ok () ∧
    (onFileSaved env a fp ⟨r, [], []⟩).1.repo.commitCount = r.commitCount + 1 ∧
    (∃ e, falhaLog (pyBasename fp) e ∈ (onFileSaved env a fp ⟨r, [], []⟩).1.logs) ∧
    ∀ (env2 : Env) (a2 : Agent) (fp2 : String) (w : World),
      (onFileSaved env2 a2 fp2 w).2 = .ok () := by
  refine ⟨onFileSaved_ok env a fp _, ?_, ?_, fun env2 a2 fp2 w => onFileSaved_ok env2 a2 fp2 w⟩
  · cases horig : r.originUrl <;>
      simp [onFileSaved, hen, hw, hd, hfmt, runGitCommand, gitExec, statusOutput, horig, hpush]
  · cases horig : r.originUrl
    · refine ⟨"fatal: no configured push destination", ?_⟩
      simp [onFileSaved, hen, hw, hd, hfmt, runGitCommand, gitExec, statusOutput, horig, hpush,
        falhaLog]
    · refine ⟨"failed to push some refs", ?_⟩
      simp [onFileSaved, hen, hw, hd, hfmt, runGitCommand, gitExec, statusOutput, horig, hpush,
        falhaLog]

/-- C2 witness: a dirty watched file with the push failing (network error). -/
theorem c2_handler_swallows_failures_witness :
    (onFileSaved ⟨true, false, fun _ => true⟩
      ⟨true, some "https://github.com/user/repo.git", some "abc123", ["printer.cfg"],
        "Auto-backup: \x7bfilename\x7d modificado", "main", true⟩
      "/home/pi/printer.cfg"
      ⟨⟨true, "main", 1, some "https://abc123@github.com/user/repo.git",
        ["/home/pi/printer.cfg"], [], []⟩, [], []⟩).2 = .ok () ∧
    (onFileSaved ⟨true, false, fun _ => true⟩
      ⟨true, some "https://github.com/user/repo.git", some "abc123", ["printer.cfg"],
        "Auto-backup: \x7bfilename\x7d modificado", "main", true⟩
      "/home/pi/printer.cfg"
      ⟨⟨true, "main", 1, some "https://abc123@github.com/user/repo.git",
        ["/home/pi/printer.cfg"], [], []⟩, [], []⟩).1.repo.commitCount = 2 :=
  ⟨(c2_handler_swallows_failures ⟨true, false, fun _ => true⟩
      ⟨true, some "https://github.com/user/repo.git", some "abc123", ["printer.cfg"],
        "Auto-backup: \x7bfilename\x7d modificado", "main", true⟩
      "/home/pi/printer.cfg"
      ⟨true, "main", 1, some "https://abc123@github.com/user/repo.git",
        ["/home/pi/printer.cfg"], [], []⟩
      "Auto-backup: printer.cfg modificado"
      rfl (by decide) (by decide) rfl rfl).1,
   (c2_handler_swallows_failures ⟨true, false, fun _ => true⟩
      ⟨true, some "https://github.com/user/repo.git", some "abc123", ["printer.cfg"],
        "Auto-backup: \x7bfilename\x7d modificado", "main", true⟩
      "/home/pi/printer.cfg"
      ⟨true, "main", 1, some "https://abc123@github.com/user/repo.git",
        ["/home/pi/printer.cfg"], [], []⟩
      "Auto-backup: printer.cfg modificado"
      rfl (by decide) (by decide) rfl rfl).2.1⟩

/-- C10: when rendering the commit-message template fails (a replacement
field other than filename, or unbalanced braces — a `KeyError`/`ValueError`
from `str.format`), a save event on a watched file with pending changes
stops after the stage and status commands: the error is caught and logged
inside the handler, no commit and no push are issued, and the same happens
on every subsequent save since the template is fixed. -/
theorem c10_bad_template_no_commit (env : Env) (a : Agent) (fp : String)
    (r : RepoState) (e : String)
    (hen : a.is_enabled = true)
    (hw : pyBasename fp ∈ a.watched_files)
    (hpend : (r.staged.isEmpty && r.dirty.isEmpty) = false)
    (hfmt : pyFormat a.commit_message (pyBasename fp) = .error e) :
    (onFileSaved env a fp ⟨r, [], []⟩).2 = .ok () ∧
    (onFileSaved env a fp ⟨r, [], []⟩).1.trace = [.add fp, .statusPorcelain] ∧
    (onFileSaved env a fp ⟨r, [], []⟩).1.repo.commitCount = r.commitCount ∧
    falhaLog (pyBasename fp) e ∈ (onFileSaved env a fp ⟨r, [], []⟩).1.logs := by
  by_cases hd : fp ∈ r.dirty
  · simp [onFileSaved, hen, hw, hd, hfmt, runGitCommand, gitExec, statusOutput, falhaLog]
  · by_cases hu : fp ∈ r.untracked
    · simp [onFileSaved, hen, hw, hd, hu, hfmt, runGitCommand, gitExec, statusOutput, falhaLog]
    · simp only [List.isEmpty_eq_false, Bool.and_eq_false_iff] at hpend
      have hcond : ¬(r.staged = [] ∧ r.dirty = [] ∧ r.untracked = []) := fun hc =>
        hpend.elim (fun h => h hc.1) (fun h => h hc.2.1)
      simp [onFileSaved, hen, hw, hd, hu, hfmt, runGitCommand, gitExec, statusOutput, falhaLog,
        hcond]

/-- C10 witness: a template with a replacement field other than filename. -/
theorem c10_bad_template_no_commit_witness :
    (onFileSaved ⟨true, true, fun _ => true⟩
      ⟨true, some "https://github.com/user/repo.git", some "abc123", ["printer.cfg"],
        "Backup de \x7bfile\x7d concluido", "main", true⟩
      "/home/pi/printer.cfg"
      ⟨⟨true, "main", 1, some "https://abc123@github.com/user/repo.git",
        ["/home/pi/printer.cfg"], [], []⟩, [], []⟩).1.trace =
      [.add "/home/pi/printer.cfg", .statusPorcelain] ∧
    (onFileSaved ⟨true, true, fun _ => true⟩
      ⟨true, some "https://github.com/user/repo.git", some "abc123", ["printer.cfg"],
        "Backup de \x7bfile\x7d concluido", "main", true⟩
      "/home/pi/printer.cfg"
      ⟨⟨true, "main", 1, some "https://abc123@github.com/user/repo.git",
        ["/home/pi/printer.cfg"], [], []⟩, [], []⟩).1.repo.commitCount = 1 :=
  ⟨(c10_bad_template_no_commit ⟨true, true, fun _ => true⟩
      ⟨true, some "https://github.com/user/repo.git", some "abc123", ["printer.cfg"],
        "Backup de \x7bfile\x7d concluido", "main", true⟩
      "/home/pi/printer.cfg"
      ⟨true, "main", 1, some "https://abc123@github.com/user/repo.git",
        ["/home/pi/printer.cfg"], [], []⟩
      "KeyError" rfl (by decide) rfl rfl).2.1,
   (c10_bad_template_no_commit ⟨true, true, fun _ => true⟩
      ⟨true, some "https://github.com/user/repo.git", some "abc123", ["printer.cfg"],
        "Backup de \x7bfile\x7d concluido", "main", true⟩
      "/home/pi/printer.cfg"
      ⟨true, "main", 1, some "https://abc123@github.com/user/repo.git",
        ["/home/pi/printer.cfg"], [], []⟩
      "KeyError" rfl (by decide) rfl rfl).2.2.1⟩

/-- Helper: the loop over watched files does nothing when none of them
exists on disk. -/
theorem addWatchedFiles_none_exists (env : Env) (fs : List String) (w : World)
    (h : ∀ f ∈ fs, env.fileExists f = false) :
    addWatchedFiles env fs w = (w, .ok ()) := by
  induction fs with
  | nil => rfl
  | cons f rest ih =>
    have hf := h f (List.mem_cons_self f rest)
    simp only [addWatchedFiles, hf, Bool.false_eq_true, if_false]
    exact ih fun g hg => h g (List.mem_cons_of_mem f hg)

/-- Concrete configuration for C3: enabled, valid remote and token, but the
only watched file does not exist on disk. -/
def c3cfg : Config :=
  ⟨true, some "https://github.com/user/repo.git", some "abc123", "printer.cfg",
    "Auto-backup: \x7bfilename\x7d modificado", "main"⟩

/-- Concrete environment for C3: git installed, but no watched file exists. -/
def c3env : Env := ⟨true, true, fun _ => false⟩

/-- Fresh repository state for C3. -/
def c3repo : RepoState := ⟨false, "master", 0, none, [], [], []⟩

/-- C3 fails on the code: with a fresh repository and no existing watched
file, `_initialize_repo` still runs the initial `git commit`, which fails
with nothing staged; the exception disables the plugin, so bootstrap does
not succeed. -/
theorem c3_counterexample :
    (gitBackupInit c3env c3cfg ⟨c3repo, [], []⟩).1.is_enabled = false ∧
    (gitBackupInit c3env c3cfg ⟨c3repo, [], []⟩).2.repo.commitCount = 0 ∧
    "Erro fatal na inicialização do GitBackup: nothing to commit" ∈
      (gitBackupInit c3env c3cfg ⟨c3repo, [], []⟩).2.logs ∧
    (gitBackupInit c3env c3cfg ⟨c3repo, [], []⟩).2.trace.contains
      (.commitMsg "Commit inicial: Arquivos de configuração monitorados") = true := by
  refine ⟨rfl, rfl, by decide, rfl⟩

/-- C3 amended: on a fresh repository, when none of the watched files exists
on disk, bootstrap does not succeed: the unconditional initial `git commit`
fails with nothing staged, initialization catches the error and disables the
agent; no commit is created. -/
theorem c3_empty_watchset_fails (env : Env) (cfg : Config) (r : RepoState)
    (hen : cfg.enabled = true)
    (hurl : pyFalsy cfg.remote_url = false)
    (htok : pyFalsy cfg.github_token = false)
    (hgit : env.gitInstalled = true)
    (hfresh : r.hasGitDir = false)
    (hstaged : r.staged = [])
    (hnof : ∀ f ∈ parseWatchedFiles cfg.watched_files, env.fileExists f = false) :
    (gitBackupInit env cfg ⟨r, [], []⟩).1.is_enabled = false ∧
    (gitBackupInit env cfg ⟨r, [], []⟩).2.repo.commitCount = r.commitCount := by
  simp [gitBackupInit, hen, initSteps, validateConfig, hurl, htok, checkGitInstalled,
    runGitCommand, gitExec, hgit, initializeRepo, hfresh,
    addWatchedFiles_none_exists env _ _ hnof, hstaged]

/-- C3 amended witness at the concrete C3 input. -/
theorem c3_empty_watchset_fails_witness :
    (gitBackupInit c3env c3cfg ⟨c3repo, [], []⟩).1.is_enabled = false ∧
    (gitBackupInit c3env c3cfg ⟨c3repo, [], []⟩).2.repo.commitCount = c3repo.commitCount :=
  c3_empty_watchset_fails c3env c3cfg c3repo rfl rfl rfl rfl rfl rfl (by decide)

/-- The token-bearing URL `_setup_remote` computes for an agent. -/
def tokenUrlOf (a : Agent) : String :=
  urlWithToken (a.remote_url.getD "") (a.github_token.getD "")

/-- Helper: staging the watched files never changes the metadata directory. -/
theorem addWatchedFiles_fst_hasGitDir (env : Env) (fs : List String) (w : World) :
    (addWatchedFiles env fs w).1.repo.hasGitDir = w.repo.hasGitDir := by
  induction fs generalizing w with
  | nil => rfl
  | cons f rest ih =>
    by_cases hf : env.fileExists f
    · by_cases hd : f ∈ w.repo.dirty
      · simp [addWatchedFiles, hf, hd, runGitCommand, gitExec, ih]
      · by_cases hu : f ∈ w.repo.untracked <;>
          simp [addWatchedFiles, hf, hd, hu, runGitCommand, gitExec, ih]
    · simp [addWatchedFiles, hf, ih]

/-- Helper: staging the watched files never changes the remote. -/
theorem addWatchedFiles_fst_originUrl (env : Env) (fs : List String) (w : World) :
    (addWatchedFiles env fs w).1.repo.originUrl = w.repo.originUrl := by
  induction fs generalizing w with
  | nil => rfl
  | cons f rest ih =>
    by_cases hf : env.fileExists f
    · by_cases hd : f ∈ w.repo.dirty
      · simp [addWatchedFiles, hf, hd, runGitCommand, gitExec, ih]
      · by_cases hu : f ∈ w.repo.untracked <;>
          simp [addWatchedFiles, hf, hd, hu, runGitCommand, gitExec, ih]
    · simp [addWatchedFiles, hf, ih]

/-- Helper: staging the watched files never raises (`git add` of an existing
file succeeds whether or not the file changed). -/
theorem addWatchedFiles_snd (env : Env) (fs : List String) (w : World) :
    (addWatchedFiles env fs w).2 = .ok () := by
  induction fs generalizing w with
  | nil => rfl
  | cons f rest ih =>
    by_cases hf : env.fileExists f
    · by_cases hd : f ∈ w.repo.dirty
      · simp [addWatchedFiles, hf, hd, runGitCommand, gitExec, ih]
      · by_cases hu : f ∈ w.repo.untracked <;>
          simp [addWatchedFiles, hf, hd, hu, runGitCommand, gitExec, ih]
    · simp [addWatchedFiles, hf, ih]

/-- Helper: `_setup_remote` always succeeds, appends exactly the remove/add
pair to the trace, and its only effect on the repository is to point the
remote `origin` at the token-bearing URL — whether or not an `origin`
existed before (a failing removal is suppressed, line 98). -/
theorem setupRemote_spec (env : Env) (a : Agent) (w : World) :
    setupRemote env a w =
      ({ repo := { w.repo with originUrl := some (tokenUrlOf a) },
         trace := w.trace ++ [.remoteRemoveOrigin, .remoteAddOrigin (tokenUrlOf a)],
         logs := w.logs ++ ["Configurando repositório remoto...",
            "Repositório remoto configurado com sucesso."] }, .ok ()) := by
  cases horig : w.repo.originUrl <;>
    simp [setupRemote, runGitCommand, gitExec, horig, tokenUrlOf]

/-- Helper: after `_initialize_repo` runs — whatever its outcome — the
metadata directory exists: either it already existed (the method is then a
no-op) or `git init` created it and no later step removes it, even when the
initial commit fails. -/
theorem initializeRepo_hasGitDir (env : Env) (a : Agent) (w : World) :
    (initializeRepo env a w).1.repo.hasGitDir = true := by
  by_cases hgd : w.repo.hasGitDir
  · simp [initializeRepo, hgd]
  · simp only [initializeRepo, hgd, Bool.false_eq_true, if_false, runGitCommand, gitExec]
    split
    · rename_i w2 e heq
      have h2 := congrArg (fun p => p.1.repo.hasGitDir) heq
      simp only [addWatchedFiles_fst_hasGitDir] at h2
      exact h2.symm.trans rfl
    · rename_i w2 u heq
      have h2 := congrArg (fun p => p.1.repo.hasGitDir) heq
      simp only [addWatchedFiles_fst_hasGitDir] at h2
      by_cases hst : w2.repo.staged.isEmpty <;> simp [hst] <;> simp_all

/-- Helper: a successful bootstrap leaves the metadata directory present and
the remote `origin` pointing at the token-bearing URL. -/
theorem bootstrap_post (env : Env) (a : Agent) (w : World)
    (h : (bootstrap env a w).2 = .ok ()) :
    (bootstrap env a w).1.repo.hasGitDir = true ∧
    (bootstrap env a w).1.repo.originUrl = some (tokenUrlOf a) := by
  unfold bootstrap at h ⊢
  rcases hI : initializeRepo env a w with ⟨w1, r1⟩
  cases r1 with
  | error e =>
    rw [hI] at h
    exact absurd (h : (Except.error e : Except String Unit) = .ok ()) (by simp)
  | ok u =>
    have hinit1 : w1.repo.hasGitDir = true := by
      have hx := initializeRepo_hasGitDir env a w
      rw [hI] at hx
      exact hx
    show (setupRemote env a w1).1.repo.hasGitDir = true ∧
      (setupRemote env a w1).1.repo.originUrl = some (tokenUrlOf a)
    rw [setupRemote_spec]
    exact ⟨hinit1, rfl⟩

/-- C6: after a successful bootstrap, running the bootstrap sequence again
from the resulting repository succeeds, skips repository creation entirely
(its trace is just the remote remove/add pair — no init, no checkout, no
initial commit), and returns the repository unchanged: no duplicate initial
commit, no duplicate remote, no error, and the suppressed failure of
removing a nonexistent remote never aborts the sequence. -/
theorem c6_bootstrap_idempotent (env : Env) (a : Agent) (r : RepoState) (w1 : World)
    (h : bootstrap env a ⟨r, [], []⟩ = (w1, .ok ())) :
    (bootstrap env a ⟨w1.repo, [], []⟩).2 = .ok () ∧
    (bootstrap env a ⟨w1.repo, [], []⟩).1.repo = w1.repo ∧
    (bootstrap env a ⟨w1.repo, [], []⟩).1.trace =
      [.remoteRemoveOrigin, .remoteAddOrigin (tokenUrlOf a)] := by
  have hp := bootstrap_post env a ⟨r, [], []⟩ (by rw [h])
  rw [h] at hp
  have hp1 : w1.repo.hasGitDir = true := hp.1
  have hp2 : w1.repo.originUrl = some (tokenUrlOf a) := hp.2
  have h2 : initializeRepo env a ⟨w1.repo, [], []⟩ =
      (⟨w1.repo, [], ["Repositório Git já existe."]⟩, .ok ()) := by
    simp [initializeRepo, hp1]
  unfold bootstrap
  rw [h2]
  show (setupRemote env a ⟨w1.repo, [], ["Repositório Git já existe."]⟩).2 = Except.ok () ∧
    (setupRemote env a ⟨w1.repo, [], ["Repositório Git já existe."]⟩).1.repo = w1.repo ∧
    (setupRemote env a ⟨w1.repo, [], ["Repositório Git já existe."]⟩).1.trace =
      [.remoteRemoveOrigin, .remoteAddOrigin (tokenUrlOf a)]
  rw [setupRemote_spec]
  refine ⟨rfl, ?_, rfl⟩
  show { w1.repo with originUrl := some (tokenUrlOf a) } = w1.repo
  rw [← hp2]

/-- C6 witness: a concrete fresh repository whose bootstrap succeeds. -/
theorem c6_bootstrap_idempotent_witness :
    (bootstrap ⟨true, true, fun _ => true⟩
      ⟨true, some "https://github.com/user/repo.git", some "abc123", ["printer.cfg"],
        "Auto-backup: \x7bfilename\x7d modificado", "main", false⟩
      ⟨(bootstrap ⟨true, true, fun _ => true⟩
          ⟨true, some "https://github.com/user/repo.git", some "abc123", ["printer.cfg"],
            "Auto-backup: \x7bfilename\x7d modificado", "main", false⟩
          ⟨⟨false, "master", 0, none, [], [], ["printer.cfg"]⟩, [], []⟩).1.repo, [], []⟩).1.repo =
      (bootstrap ⟨true, true, fun _ => true⟩
        ⟨true, some "https://github.com/user/repo.git", some "abc123", ["printer.cfg"],
          "Auto-backup: \x7bfilename\x7d modificado", "main", false⟩
        ⟨⟨false, "master", 0, none, [], [], ["printer.cfg"]⟩, [], []⟩).1.repo :=
  (c6_bootstrap_idempotent ⟨true, true, fun _ => true⟩
    ⟨true, some "https://github.com/user/repo.git", some "abc123", ["printer.cfg"],
      "Auto-backup: \x7bfilename\x7d modificado", "main", false⟩
    ⟨false, "master", 0, none, [], [], ["printer.cfg"]⟩
    (bootstrap ⟨true, true, fun _ => true⟩
      ⟨true, some "https://github.com/user/repo.git", some "abc123", ["printer.cfg"],
        "Auto-backup: \x7bfilename\x7d modificado", "main", false⟩
      ⟨⟨false, "master", 0, none, [], [], ["printer.cfg"]⟩, [], []⟩).1
    rfl).2.1
